import Mathlib

/-!
# Verification of the TAVIT person-monitoring / alert-dispatch subsystem

Shallow embedding of `src/notification_system.py` (class `NotificationManager`).

Modelling conventions:
* Timestamps (`datetime.now()`) are naturals counting seconds since the Unix
  epoch; every operation that reads the clock takes the current time as an
  explicit parameter.  `datetime.strftime` / `datetime.isoformat` are
  reimplemented over that representation with the standard civil-calendar
  conversion, and `datetime.timestamp()` is rendered with `toString`.
* External nondeterminism (HTTP responses, raised exceptions, the
  `random.random()` draws of the simulated checkers, `random.choice` /
  `random.randint` picks) is supplied through explicit environment records;
  a Python exception raised by a library call is an `Except.error` injected
  at the corresponding point of the computation.
* The `asyncio` single-thread cooperative scheduling is modelled by a
  fuel-indexed loop interpreter; a concurrent `stop_monitoring` call landing
  in the `await asyncio.sleep` suspension point of iteration `k` is modelled
  by a schedule `sched : Nat → Bool`.
* Python dict aliasing (the loop's `monitor` dict is the registry entry) is
  modelled by threading the monitor record through the loop and mirroring
  each of its mutations into the registry.
* Observable side effects (sleeps, SMTP sends, webhook POSTs, `print` logs)
  are collected in an `Effect` trace.
-/

namespace Tavit

/-- `class AlertSeverity(Enum)`. -/
inductive AlertSeverity where
  | info
  | warning
  | critical
  | urgent
deriving DecidableEq

/-- The `.value` string of an `AlertSeverity` member. -/
def AlertSeverity.value : AlertSeverity → String
  | .info => "info"
  | .warning => "warning"
  | .critical => "critical"
  | .urgent => "urgent"

/-- `class NotificationChannel(Enum)`. -/
inductive NotificationChannel where
  | email
  | webhook
  | sms
  | slack
deriving DecidableEq

/-- The `.value` string of a `NotificationChannel` member. -/
def NotificationChannel.value : NotificationChannel → String
  | .email => "email"
  | .webhook => "webhook"
  | .sms => "sms"
  | .slack => "slack"

/-- A metadata value: every metadata entry built in the source is a string or
`None` (the latter from `dict.get` on a missing key). -/
inductive MetaV where
  | s (v : String)
  | nullv
deriving DecidableEq

/-- `opinion.get(key)` result as a metadata value. -/
def optMeta : Option String → MetaV
  | some v => .s v
  | none => .nullv

/-- `@dataclass class Alert`.  `created_at` is an epoch-second timestamp. -/
structure Alert where
  id : String
  title : String
  message : String
  severity : AlertSeverity
  source : String
  target_person : String
  target_id : Option String
  created_at : Nat
  channels : List NotificationChannel
  metadata : List (String × MetaV)
deriving DecidableEq

/-- The per-person monitor dict built by `setup_person_monitoring`. -/
structure MonitorConfig where
  id : String
  person_name : String
  person_id : String
  alert_triggers : List String
  channels : List String
  active : Bool
  last_check : Option Nat
  check_interval : Nat
  sources : List String
deriving DecidableEq

/-- The mutable state of a `NotificationManager`: `self.alerts_queue` and
`self.active_monitors` (a string-keyed dict, modelled as an association
list updated in place). -/
structure SysState where
  alerts_queue : List Alert
  active_monitors : List (String × MonitorConfig)
deriving DecidableEq

/-- Dict lookup on the monitor registry. -/
def findMon : List (String × MonitorConfig) → String → Option MonitorConfig
  | [], _ => none
  | (k, v) :: rest, mid => if k = mid then some v else findMon rest mid

/-- Dict assignment `d[key] = m` on the monitor registry. -/
def insertMon : List (String × MonitorConfig) → String → MonitorConfig → List (String × MonitorConfig)
  | [], mid, m => [(mid, m)]
  | (k, v) :: rest, mid, m =>
      if k = mid then (k, m) :: rest else (k, v) :: insertMon rest mid m

/-- In-place mutation `d[mid]["active"] = b` (pointwise update of the keyed
entry, all other entries untouched). -/
def setActiveFlag : List (String × MonitorConfig) → String → Bool → List (String × MonitorConfig)
  | [], _, _ => []
  | (k, v) :: rest, mid, b =>
      (k, if k = mid then { v with active := b } else v) :: setActiveFlag rest mid b

/-! ## Time formatting (model of `datetime.strftime` / `datetime.isoformat`) -/

/-- Zero-pad to two digits. -/
def pad2 (n : Nat) : String := if n < 10 then "0" ++ toString n else toString n

/-- Zero-pad to four digits. -/
def pad4 (n : Nat) : String :=
  if n < 10 then "000" ++ toString n
  else if n < 100 then "00" ++ toString n
  else if n < 1000 then "0" ++ toString n
  else toString n

/-- Calendar date. -/
structure Ymd where
  y : Nat
  m : Nat
  d : Nat

/-- Gregorian date of a day count since 1970-01-01 (standard civil-from-days
computation). -/
def civilFromDays (z0 : Nat) : Ymd :=
  let z := z0 + 719468
  let era := z / 146097
  let doe := z % 146097
  let yoe := (doe - doe / 1460 + doe / 36524 - doe / 146096) / 365
  let doy := doe - (365 * yoe + yoe / 4 - yoe / 100)
  let mp := (5 * doy + 2) / 153
  let d := doy - (153 * mp + 2) / 5 + 1
  let m := if mp < 10 then mp + 3 else mp - 9
  let y := yoe + era * 400
  { y := if m ≤ 2 then y + 1 else y, m := m, d := d }

/-- `dt.strftime("%Y%m%d_%H%M%S")` for an epoch-second timestamp. -/
def strftimeYmdHMS (t : Nat) : String :=
  let c := civilFromDays (t / 86400)
  let s := t % 86400
  pad4 c.y ++ pad2 c.m ++ pad2 c.d ++ "_" ++ pad2 (s / 3600) ++ pad2 (s % 3600 / 60) ++ pad2 (s % 60)

/-- `dt.strftime("%Y-%m-%d")` for an epoch-second timestamp. -/
def strftimeYmd (t : Nat) : String :=
  let c := civilFromDays (t / 86400)
  pad4 c.y ++ "-" ++ pad2 c.m ++ "-" ++ pad2 c.d

/-- `dt.isoformat()` for an epoch-second timestamp. -/
def isoformat (t : Nat) : String :=
  let c := civilFromDays (t / 86400)
  let s := t % 86400
  pad4 c.y ++ "-" ++ pad2 c.m ++ "-" ++ pad2 c.d ++ "T" ++
    pad2 (s / 3600) ++ ":" ++ pad2 (s % 3600 / 60) ++ ":" ++ pad2 (s % 60)

/-- `dt.year` for an epoch-second timestamp. -/
def yearOf (t : Nat) : Nat := (civilFromDays (t / 86400)).y

/-! ## String helpers (models of Python `str` operations) -/

/-- `s.replace(' ', '_')` (single-character replacement is a character map). -/
def underscore (s : String) : String :=
  String.mk (s.data.map fun c => if c = ' ' then '_' else c)

/-- ASCII lowering of one character (model of `str.lower` on the ASCII
strings this code handles). -/
def lcChar (c : Char) : Char :=
  if 65 ≤ c.toNat && c.toNat ≤ 90 then Char.ofNat (c.toNat + 32) else c

/-- `s.lower()`. -/
def strLower (s : String) : String := String.mk (s.data.map lcChar)

/-- `needle` is a character-list prefix of `hay`. -/
def pfxEq : List Char → List Char → Bool
  | [], _ => true
  | _ :: _, [] => false
  | a :: as, b :: bs => a == b && pfxEq as bs

/-- `needle` occurs as a contiguous sublist of `hay`. -/
def findSub (needle : List Char) : List Char → Bool
  | [] => pfxEq needle []
  | b :: bs => pfxEq needle (b :: bs) || findSub needle bs

/-- Python `needle in hay` on strings (substring test). -/
def strContains (hay needle : String) : Bool := findSub needle.data hay.data

/-- Python truthiness test `not x` for an optional string (`None` and `""`
are falsy). -/
def pyFalsy : Option String → Bool
  | none => true
  | some s => s = ""

/-! ## Environment-supplied configuration and nondeterminism -/

/-- The environment-derived configuration read at `NotificationManager`
construction: `COURTLISTENER_TOKEN` (`os.getenv`, `None` when unset),
`NOTIFICATION_PASSWORD` and `WEBHOOK_URL` (defaulted to `""`). -/
structure Cfg where
  cl_token : Option String
  email_password : String
  webhook_url : String

/-- One opinion record of a decoded CourtListener response.  The decode step
producing these typed records stands for `response.json()` plus the
dictionary accesses on each opinion; a malformed response is an error of the
decode step. -/
structure Opinion where
  oid : Nat
  plain_text : String
  case_name : Option String
  court : Option String
  date_created : Option String
  absolute_url : String
deriving DecidableEq

/-- Outcome of the CourtListener HTTP exchange: the `client.get` call raises
(network failure) or yields a response with a status code whose body decodes
to a list of opinions or raises on `response.json()`. -/
inductive CLEnv where
  | netFail (msg : String)
  | resp (status : Nat) (body : Except String (List Opinion))

/-- Per-cycle dispatch-transport outcomes: whether the SMTP conversation
raises, and the webhook POST outcome (`none` = the HTTP client raises,
`some status` = a response with that status code). -/
structure DispatchEnv where
  emailFail : Bool
  webhookNet : Option Nat
deriving DecidableEq

/-- Everything one iteration of the monitoring loop obtains from the outside
world: the clock, whether the iteration body raises an exception of its own
(the `except Exception` arm), the CourtListener exchange, the random draws
of the three simulated checkers, and the dispatch-transport outcomes. -/
structure CycleEnv where
  now : Nat
  raiseExn : Option String
  cl : CLEnv
  vineHit : Bool
  pacerHit : Bool
  pacerCaseIdx : Nat
  pacerN1 : Nat
  pacerN2 : Nat
  stateHit : Bool
  stateIdx : Nat
  courtIdx : Nat
  de : DispatchEnv

/-! ## Source checkers -/

/-- The keyword test of `_check_courtlistener`:
`any(trigger in opinion.get("plain_text", "").lower() for trigger in
["arrest", "conviction", "sentence"] if trigger in alert_triggers)`. -/
def clTriggerHit (alert_triggers : List String) (o : Opinion) : Bool :=
  ((["arrest", "conviction", "sentence"].filter fun t => alert_triggers.contains t).any
    fun t => strContains (strLower o.plain_text) t)

/-- The alert built for one matching opinion in `_check_courtlistener`. -/
def clAlertOf (person_name : String) (alert_triggers : List String) (now : Nat)
    (o : Opinion) : Option Alert :=
  if clTriggerHit alert_triggers o then
    some
      { id := "cl_" ++ toString o.oid ++ "_" ++ toString now
        title := "Nuevo Caso Judicial Detectado"
        message := "Nueva mención de " ++ person_name ++ " en caso judicial: " ++
          o.case_name.getD "N/A"
        severity := .critical
        source := "courtlistener"
        target_person := person_name
        target_id := none
        created_at := now
        channels := [.email, .webhook]
        metadata :=
          [("case_name", optMeta o.case_name), ("court", optMeta o.court),
           ("date_filed", optMeta o.date_created),
           ("url", .s ("https://www.courtlistener.com" ++ o.absolute_url))] }
  else none

/-- The `try` body of `_check_courtlistener`: the missing-token early return,
the HTTP exchange, the 200-status guard and the opinion loop; an
`Except.error` is a Python exception crossing this point. -/
def clTryBody (token : Option String) (env : CLEnv) (person_name : String)
    (alert_triggers : List String) (now : Nat) : Except String (List Alert) :=
  if pyFalsy token then .ok []
  else
    match env with
    | .netFail msg => .error msg
    | .resp status body =>
        if status = 200 then
          match body with
          | .error msg => .error msg
          | .ok results => .ok (results.filterMap (clAlertOf person_name alert_triggers now))
        else .ok []

/-- `_check_courtlistener`: the `try` body with its catch-all `except` arm,
which logs and falls through to `return alerts` (no alert has been appended
yet at any failure point, so the caught path returns `[]`). -/
def check_courtlistener (token : Option String) (env : CLEnv) (person_name : String)
    (alert_triggers : List String) (now : Nat) : List Alert :=
  match clTryBody token env person_name alert_triggers now with
  | .ok l => l
  | .error _ => []

/-- `_check_vinelink`: simulated checker; `hit` is the 1% `random.random()`
draw. -/
def check_vinelink (hit : Bool) (person_name person_id : String) (now : Nat) : List Alert :=
  if hit then
    [{ id := "vine_" ++ underscore person_name ++ "_" ++ toString now
       title := "Alerta VINELink - Cambio de Estado"
       message := "VINELink reporta cambio de estado para " ++ person_name ++
         ". Revisar inmediatamente."
       severity := .urgent
       source := "vinelink"
       target_person := person_name
       target_id := some person_id
       created_at := now
       channels := [.email, .sms]
       metadata :=
         [("facility", .s "Simulado - Centro Correccional"),
          ("status_change", .s "Release Pending"),
          ("notification_type", .s "Custody Status Change")] }]
  else []

/-- `case_types` of `_check_pacer`. -/
def case_types : List String := ["Criminal", "Civil", "Bankruptcy", "Appeals"]

/-- `_check_pacer`: simulated checker; `hit` is the 2% draw, `caseIdx` the
`random.choice` pick and `n1`, `n2` the `random.randint` draws (reduced into
the documented ranges). -/
def check_pacer (hit : Bool) (caseIdx n1 n2 : Nat) (person_name : String) (now : Nat) :
    List Alert :=
  if hit then
    let case_type := case_types.getD (caseIdx % 4) "Criminal"
    [{ id := "pacer_" ++ underscore person_name ++ "_" ++ toString now
       title := "Nuevo Caso PACER - " ++ case_type
       message := "Nuevo caso " ++ strLower case_type ++ " en PACER involucra a " ++ person_name
       severity := if case_type = "Criminal" then .critical else .warning
       source := "pacer"
       target_person := person_name
       target_id := none
       created_at := now
       channels := [.email, .webhook]
       metadata :=
         [("case_type", .s case_type), ("court", .s "U.S. District Court"),
          ("case_number", .s (toString (10 + n1 % 90) ++ ":" ++ toString (yearOf now) ++
            ":cv:" ++ toString (1000 + n2 % 9000))),
          ("filing_date", .s (strftimeYmd now))] }]
  else []

/-- `states` of `_check_state_courts`. -/
def statesList : List String := ["California", "Texas", "Florida", "New York", "Illinois"]

/-- `court_types` of `_check_state_courts`. -/
def court_types : List String := ["Superior Court", "Circuit Court", "District Court"]

/-- `_check_state_courts`: simulated checker; `hit` is the 1.5% draw,
`stateIdx` / `courtIdx` the `random.choice` picks. -/
def check_state_courts (hit : Bool) (stateIdx courtIdx : Nat) (person_name : String)
    (now : Nat) : List Alert :=
  if hit then
    let state := statesList.getD (stateIdx % 5) "California"
    let court_type := court_types.getD (courtIdx % 3) "Superior Court"
    [{ id := "state_" ++ strLower state ++ "_" ++ underscore person_name ++ "_" ++ toString now
       title := "Caso en Tribunal Estatal - " ++ state
       message := "Nuevo registro en " ++ court_type ++ " de " ++ state ++ " para " ++ person_name
       severity := .warning
       source := "state_court_" ++ strLower state
       target_person := person_name
       target_id := none
       created_at := now
       channels := [.email]
       metadata :=
         [("state", .s state), ("court_type", .s court_type),
          ("case_category", .s "Civil/Criminal TBD"),
          ("record_date", .s (strftimeYmd now))] }]
  else []

/-! ## Channel dispatchers and the alert pipeline -/

/-- ASCII raising of one character (model of `str.upper`). -/
def ucChar (c : Char) : Char :=
  if 97 ≤ c.toNat && c.toNat ≤ 122 then Char.ofNat (c.toNat - 32) else c

/-- `s.upper()`. -/
def strUpper (s : String) : String := String.mk (s.data.map ucChar)

/-- A top-level JSON value of the webhook payload: every value placed there
by the source is a string, `None`, or the metadata dictionary. -/
inductive PayV where
  | s (v : String)
  | nullv
  | meta (m : List (String × MetaV))
deriving DecidableEq

/-- `alert.target_id` as a payload value. -/
def optPay : Option String → PayV
  | some v => .s v
  | none => .nullv

/-- An observable side effect of the pipeline: an `await asyncio.sleep`, an
SMTP delivery, a webhook POST (with the configured timeout and the JSON
payload), or a `print` log line. -/
inductive Effect where
  | sleep (seconds : Nat)
  | emailSent (rcpt : String) (subject : String)
  | webhookPost (url : String) (timeout : Nat) (payload : List (String × PayV))
  | smsLog (title message : String)
  | slackLog (title : String)
  | printLog (msg : String)
deriving DecidableEq

/-- `_send_email_alert`: skips (logging intent) when no password is
configured; otherwise the SMTP conversation either raises — caught and
logged — or delivers to `admin@tavit.com`. -/
def send_email_alert (cfg : Cfg) (de : DispatchEnv) (alert : Alert) : List Effect :=
  if cfg.email_password = "" then
    [.printLog ("Email not configured, would send: " ++ alert.title)]
  else if de.emailFail then
    [.printLog "Error sending email alert"]
  else
    [.emailSent "admin@tavit.com"
      ("TAVIT Alert [" ++ strUpper alert.severity.value ++ "]: " ++ alert.title)]

/-- The JSON payload POSTed by `_send_webhook_alert`. -/
def webhook_payload (alert : Alert) : List (String × PayV) :=
  [("alert_id", .s alert.id), ("title", .s alert.title), ("message", .s alert.message),
   ("severity", .s alert.severity.value), ("source", .s alert.source),
   ("target_person", .s alert.target_person), ("target_id", optPay alert.target_id),
   ("created_at", .s (isoformat alert.created_at)), ("metadata", .meta alert.metadata)]

/-- `_send_webhook_alert`: skips (logging intent) when no URL is configured;
otherwise issues one POST with the configured 30-second timeout; a raising
HTTP client is caught and logged; a non-200 status is logged; no retry. -/
def send_webhook_alert (cfg : Cfg) (de : DispatchEnv) (alert : Alert) : List Effect :=
  if cfg.webhook_url = "" then
    [.printLog ("Webhook not configured, would send: " ++ alert.title)]
  else
    match de.webhookNet with
    | none => [.printLog "Error sending webhook alert"]
    | some status =>
        .webhookPost cfg.webhook_url 30 (webhook_payload alert) ::
          (if status ≠ 200 then
            [.printLog ("Webhook failed with status " ++ toString status)]
          else [])

/-- `_send_sms_alert` (log-only stub). -/
def send_sms_alert (alert : Alert) : List Effect :=
  [.smsLog alert.title alert.message]

/-- `_send_slack_alert` (log-only stub). -/
def send_slack_alert (alert : Alert) : List Effect :=
  [.slackLog alert.title]

/-- The per-channel-name branch of `_process_alert` (unknown names fall
through all branches and do nothing). -/
def dispatch_channel (cfg : Cfg) (de : DispatchEnv) (alert : Alert)
    (channel_name : String) : List Effect :=
  if channel_name = "email" then send_email_alert cfg de alert
  else if channel_name = "webhook" then send_webhook_alert cfg de alert
  else if channel_name = "sms" then send_sms_alert alert
  else if channel_name = "slack" then send_slack_alert alert
  else []

/-- `_process_alert(alert, channels)`: append the alert to
`self.alerts_queue`, then dispatch over each name in the `channels`
argument. -/
def process_alert (cfg : Cfg) (de : DispatchEnv) (queue : List Alert) (alert : Alert)
    (channels : List String) : List Alert × List Effect :=
  (queue ++ [alert], channels.flatMap (dispatch_channel cfg de alert))

/-- The `for alert in new_alerts: await self._process_alert(...)` loop of one
check cycle. -/
def processAlerts (cfg : Cfg) (de : DispatchEnv) (queue : List Alert)
    (alerts : List Alert) (channels : List String) : List Alert × List Effect :=
  alerts.foldl
    (fun acc a =>
      let r := process_alert cfg de acc.1 a channels
      (r.1, acc.2 ++ r.2))
    (queue, [])

/-! ## The monitoring loop -/

/-- The alert built in the `except Exception` arm of
`_start_monitoring_loop`. -/
def errorAlertOf (m : MonitorConfig) (now : Nat) (e : String) : Alert :=
  { id := "error_" ++ m.id ++ "_" ++ toString now
    title := "Error en Monitoreo"
    message := "Error monitoreando " ++ m.person_name ++ ": " ++ e
    severity := .warning
    source := "system"
    target_person := m.person_name
    target_id := some m.person_id
    created_at := now
    channels := [.email]
    metadata := [("monitor_id", .s m.id), ("error", .s e)] }

/-- One iteration body of the `while monitor["active"]` loop (lines
120–174): either the `try` block — query the four checkers, process every
alert found over the monitor's channels, stamp `last_check`, sleep
`check_interval` — or, when the iteration raises, the `except` arm — emit
one warning alert and sleep 300 seconds.  Mutations of the aliased monitor
dict are mirrored into the registry. -/
def loopCycle (cfg : Cfg) (env : CycleEnv) (m : MonitorConfig) (st : SysState) :
    MonitorConfig × SysState × List Effect :=
  match env.raiseExn with
  | some e =>
      let r := process_alert cfg env.de st.alerts_queue (errorAlertOf m env.now e) m.channels
      (m, { st with alerts_queue := r.1 }, r.2 ++ [.sleep 300])
  | none =>
      let new_alerts :=
        check_courtlistener cfg.cl_token env.cl m.person_name m.alert_triggers env.now ++
        check_vinelink env.vineHit m.person_name m.person_id env.now ++
        check_pacer env.pacerHit env.pacerCaseIdx env.pacerN1 env.pacerN2 m.person_name env.now ++
        check_state_courts env.stateHit env.stateIdx env.courtIdx m.person_name env.now
      let r := processAlerts cfg env.de st.alerts_queue new_alerts m.channels
      let m' := { m with last_check := some env.now }
      ( m',
        { alerts_queue := r.1,
          active_monitors := insertMon st.active_monitors m'.id m' },
        r.2 ++ [.sleep m.check_interval])

/-- The effect on the loop's monitor (and, through dict aliasing, on the
registry) of a concurrent `stop_monitoring` call landing in this iteration's
sleep suspension point: the flag flip of `stop_monitoring`, or nothing. -/
def loopStop (stopHere : Bool) (m : MonitorConfig) (st : SysState) :
    MonitorConfig × SysState :=
  if stopHere then
    ({ m with active := false },
     { st with active_monitors := setActiveFlag st.active_monitors m.id false })
  else (m, st)

/-- Fuel-indexed interpreter of the `while monitor["active"]` loop.  `k` is
the iteration counter; `sched k = true` models a concurrent
`stop_monitoring` call landing in iteration `k`'s sleep suspension point.
`none` means the fuel ran out with the loop still running. -/
def runLoop (cfg : Cfg) (cenvs : Nat → CycleEnv) (sched : Nat → Bool) :
    Nat → Nat → MonitorConfig → SysState → Option (MonitorConfig × SysState)
  | 0, _, _, _ => none
  | fuel + 1, k, m, st =>
      if m.active then
        let r := loopCycle cfg (cenvs k) m st
        let p := loopStop (sched k) r.1 r.2.1
        runLoop cfg cenvs sched fuel (k + 1) p.1 p.2
      else some (m, st)

/-- `_start_monitoring_loop(monitor_id)`: fetch the monitor (early return
when absent) and run the loop. -/
def start_monitoring_loop (cfg : Cfg) (cenvs : Nat → CycleEnv) (sched : Nat → Bool)
    (fuel : Nat) (monitor_id : String) (st : SysState) : Option SysState :=
  match findMon st.active_monitors monitor_id with
  | none => some st
  | some m => (runLoop cfg cenvs sched fuel 0 m st).map Prod.snd

/-! ## Registration, retrieval, stop -/

/-- The monitor id built at line 91:
`f"monitor_{person_name.replace(' ', '_')}_{datetime.now().strftime('%Y%m%d_%H%M%S')}"`. -/
def monitorIdOf (person_name : String) (now : Nat) : String :=
  "monitor_" ++ underscore person_name ++ "_" ++ strftimeYmdHMS now

/-- Lines 91–105 of `setup_person_monitoring`: build the id and the config
dict and store it in `self.active_monitors`.  No validation is performed on
any argument. -/
def setup_register (person_name person_id : String)
    (alert_triggers notification_channels : List String) (now : Nat) (st : SysState) :
    String × MonitorConfig × SysState :=
  let monitor_id := monitorIdOf person_name now
  let mc : MonitorConfig :=
    { id := monitor_id
      person_name := person_name
      person_id := person_id
      alert_triggers := alert_triggers
      channels := notification_channels
      active := true
      last_check := none
      check_interval := 3600
      sources := ["courtlistener", "pacer", "vinelink", "state_courts"] }
  (monitor_id, mc, { st with active_monitors := insertMon st.active_monitors monitor_id mc })

/-- `setup_person_monitoring`: register, then `await
self._start_monitoring_loop(monitor_id)` — the loop runs inline — and only
then `return monitor_id`.  `none` means the coroutine is still running after
`fuel` loop iterations. -/
def setup_person_monitoring (cfg : Cfg) (cenvs : Nat → CycleEnv) (sched : Nat → Bool)
    (fuel : Nat) (person_name person_id : String)
    (alert_triggers notification_channels : List String) (now : Nat) (st : SysState) :
    Option (String × SysState) :=
  let r := setup_register person_name person_id alert_triggers notification_channels now st
  (start_monitoring_loop cfg cenvs sched fuel r.1 r.2.2).map fun st2 => (r.1, st2)

/-- `get_recent_alerts(hours)`: keep the queued alerts strictly newer than
`datetime.now() - timedelta(hours=hours)`. -/
def get_recent_alerts (queue : List Alert) (now : Nat) (hours : Int) : List Alert :=
  queue.filter fun a => decide ((now : Int) - hours * 3600 < (a.created_at : Int))

/-- `stop_monitoring(monitor_id)`: flip `active` to `False` and return
`True` when the id is registered, else return `False`. -/
def stop_monitoring (st : SysState) (monitor_id : String) : Bool × SysState :=
  match findMon st.active_monitors monitor_id with
  | some _ =>
      (true, { st with active_monitors := setActiveFlag st.active_monitors monitor_id false })
  | none => (false, st)

/-! ## Registry lemmas -/

theorem findMon_insert_self (l : List (String × MonitorConfig)) (k : String)
    (m : MonitorConfig) : findMon (insertMon l k m) k = some m := by
  induction l with
  | nil => simp [insertMon, findMon]
  | cons p rest ih =>
      obtain ⟨pk, pv⟩ := p
      by_cases h : pk = k
      · subst h
        simp [insertMon, findMon]
      · simp [insertMon, findMon, h, ih]

theorem findMon_insert_ne (l : List (String × MonitorConfig)) (k k' : String)
    (m : MonitorConfig) (h : k' ≠ k) : findMon (insertMon l k m) k' = findMon l k' := by
  induction l with
  | nil => simp [insertMon, findMon, Ne.symm h]
  | cons p rest ih =>
      obtain ⟨pk, pv⟩ := p
      by_cases hk : pk = k
      · subst hk
        simp [insertMon, findMon, Ne.symm h]
      · simp [insertMon, findMon, hk, ih]

theorem findMon_setActive_self (l : List (String × MonitorConfig)) (mid : String)
    (b : Bool) :
    findMon (setActiveFlag l mid b) mid = (findMon l mid).map fun m => { m with active := b } := by
  induction l with
  | nil => simp [setActiveFlag, findMon]
  | cons p rest ih =>
      obtain ⟨pk, pv⟩ := p
      by_cases h : pk = mid
      · subst h
        simp [setActiveFlag, findMon]
      · simp [setActiveFlag, findMon, h, ih]

theorem findMon_setActive_ne (l : List (String × MonitorConfig)) (mid k : String)
    (b : Bool) (h : k ≠ mid) : findMon (setActiveFlag l mid b) k = findMon l k := by
  induction l with
  | nil => simp [setActiveFlag, findMon]
  | cons p rest ih =>
      obtain ⟨pk, pv⟩ := p
      by_cases hk : pk = mid
      · subst hk
        simp [setActiveFlag, findMon, Ne.symm h, ih]
      · simp [setActiveFlag, findMon, hk, ih]

/-! ## Loop-shape lemmas -/

theorem loopCycle_fst (cfg : Cfg) (env : CycleEnv) (m : MonitorConfig) (st : SysState) :
    (loopCycle cfg env m st).1 =
      match env.raiseExn with
      | some _ => m
      | none => { m with last_check := some env.now } := by
  unfold loopCycle
  cases env.raiseExn <;> rfl

theorem loopCycle_active (cfg : Cfg) (env : CycleEnv) (m : MonitorConfig) (st : SysState) :
    (loopCycle cfg env m st).1.active = m.active := by
  rw [loopCycle_fst]
  cases env.raiseExn <;> rfl

theorem loopCycle_id (cfg : Cfg) (env : CycleEnv) (m : MonitorConfig) (st : SysState) :
    (loopCycle cfg env m st).1.id = m.id := by
  rw [loopCycle_fst]
  cases env.raiseExn <;> rfl

theorem loopCycle_findMon (cfg : Cfg) (env : CycleEnv) (m : MonitorConfig) (st : SysState)
    (h : findMon st.active_monitors m.id = some m) :
    findMon (loopCycle cfg env m st).2.1.active_monitors (loopCycle cfg env m st).1.id =
      some (loopCycle cfg env m st).1 := by
  unfold loopCycle
  cases henv : env.raiseExn with
  | some e => simpa using h
  | none => simp [findMon_insert_self]

theorem loopStop_id (b : Bool) (m : MonitorConfig) (st : SysState) :
    (loopStop b m st).1.id = m.id := by
  unfold loopStop
  split <;> rfl

theorem loopStop_findMon (b : Bool) (m : MonitorConfig) (st : SysState)
    (h : findMon st.active_monitors m.id = some m) :
    findMon (loopStop b m st).2.active_monitors (loopStop b m st).1.id =
      some (loopStop b m st).1 := by
  unfold loopStop
  split
  · simp [findMon_setActive_self, h]
  · exact h

/-- The all-false stop schedule: no concurrent `stop_monitoring` call ever
arrives. -/
def schedNone : Nat → Bool := fun _ => false

/-- The all-true stop schedule: a concurrent `stop_monitoring` call lands in
the very first sleep. -/
def schedAll : Nat → Bool := fun _ => true

/-- Without a concurrent stop, an active monitor's loop never exits: any
amount of fuel runs out. -/
theorem runLoop_noStop (cfg : Cfg) (cenvs : Nat → CycleEnv) :
    ∀ fuel k m st, m.active = true →
      runLoop cfg cenvs schedNone fuel k m st = none := by
  intro fuel
  induction fuel with
  | zero => intro k m st _; rfl
  | succ n ih =>
      intro k m st h
      unfold runLoop
      rw [if_pos h]
      simp only [schedNone, loopStop, Bool.false_eq_true, if_false]
      exact ih (k + 1) _ _ (by rw [loopCycle_active]; exact h)

/-- When the loop does exit, the monitor it leaves behind is the registered
one (same id, still present in the registry) with `active = false`. -/
theorem runLoop_exit (cfg : Cfg) (cenvs : Nat → CycleEnv) (sched : Nat → Bool) :
    ∀ fuel k m st mf stf,
      runLoop cfg cenvs sched fuel k m st = some (mf, stf) →
      findMon st.active_monitors m.id = some m →
      mf.id = m.id ∧ mf.active = false ∧ findMon stf.active_monitors m.id = some mf := by
  intro fuel
  induction fuel with
  | zero => intro k m st mf stf h _; simp [runLoop] at h
  | succ n ih =>
      intro k m st mf stf h hfind
      unfold runLoop at h
      by_cases hact : m.active
      · rw [if_pos hact] at h
        have hcyc := loopCycle_findMon cfg (cenvs k) m st hfind
        have hstep := loopStop_findMon (sched k) (loopCycle cfg (cenvs k) m st).1
          (loopCycle cfg (cenvs k) m st).2.1 hcyc
        have := ih (k + 1) _ _ mf stf h hstep
        obtain ⟨hid, hactf, hfm⟩ := this
        have hid2 : (loopStop (sched k) (loopCycle cfg (cenvs k) m st).1
            (loopCycle cfg (cenvs k) m st).2.1).1.id = m.id := by
          rw [loopStop_id, loopCycle_id]
        exact ⟨hid.trans hid2, hactf, hid2 ▸ hfm⟩
      · rw [if_neg hact] at h
        injection h with h2
        injection h2 with hm hs
        subst hm
        subst hs
        exact ⟨rfl, by simpa using hact, hfind⟩

/-! ## Concrete fixtures for witnesses and counterexamples -/

/-- A manager configuration with nothing configured (all `os.getenv`
defaults). -/
def cfg0 : Cfg := { cl_token := none, email_password := "", webhook_url := "" }

/-- Dispatch transports that do not raise. -/
def de0 : DispatchEnv := { emailFail := false, webhookNet := none }

/-- A cycle environment at time 0 in which nothing happens: no exception, an
empty CourtListener result page, no simulated hits. -/
def envBenign : CycleEnv :=
  { now := 0, raiseExn := none, cl := .resp 200 (.ok []), vineHit := false,
    pacerHit := false, pacerCaseIdx := 0, pacerN1 := 0, pacerN2 := 0,
    stateHit := false, stateIdx := 0, courtIdx := 0, de := de0 }

/-- Benign environments for every iteration. -/
def cenvs0 : Nat → CycleEnv := fun _ => envBenign

/-- A freshly constructed manager: empty alert log, empty registry. -/
def st0 : SysState := { alerts_queue := [], active_monitors := [] }

/-- The monitor id produced for Jane Doe at time 0. -/
def midJane : String := monitorIdOf "Jane Doe" 0

/-- The monitor registered for Jane Doe at time 0. -/
def mW : MonitorConfig := (setup_register "Jane Doe" "p1" ["arrest"] ["email"] 0 st0).2.1

/-- The registry state right after registering Jane Doe at time 0. -/
def stW : SysState := (setup_register "Jane Doe" "p1" ["arrest"] ["email"] 0 st0).2.2

/-- A concrete alert (produced outside the checkers) whose `channels` field
is `[sms]`. -/
def alertW : Alert :=
  { id := "a5", title := "T5", message := "M5", severity := .info, source := "s",
    target_person := "Jane Doe", target_id := none, created_at := 7000,
    channels := [.sms], metadata := [] }

/-! ## C7 -/

/-- C7: for every hours value and every alert-log state, `get_recent_alerts`
returns only alerts from the log whose `created_at` is strictly inside the
`hours`-hour window ending at the call time — never an older one. -/
theorem get_recent_alerts_window (queue : List Alert) (now : Nat) (hours : Int) (a : Alert)
    (ha : a ∈ get_recent_alerts queue now hours) :
    a ∈ queue ∧ (now : Int) - hours * 3600 < (a.created_at : Int) := by
  unfold get_recent_alerts at ha
  simpa using List.mem_filter.mp ha

/-- Witness for C7 at a concrete log: an alert created at second 7000 is
returned by a 1-hour query at second 7200 and indeed lies inside the
window. -/
theorem get_recent_alerts_window_witness :
    alertW ∈ get_recent_alerts [alertW] 7200 1 ∧
      (7200 : Int) - 1 * 3600 < (alertW.created_at : Int) := by
  have hmem : alertW ∈ get_recent_alerts [alertW] 7200 1 := by decide
  exact ⟨hmem, (get_recent_alerts_window [alertW] 7200 1 alertW hmem).2⟩

/-! ## C8 -/

/-- C8: `stop_monitoring` on an unknown id returns `False` and leaves the
state unchanged; on a known id it returns `True`, flips that monitor's
`active` flag to `False` in place, touches no other registry entry, and
does not remove the monitor. -/
theorem stop_monitoring_spec (st : SysState) (mid : String) :
    (findMon st.active_monitors mid = none → stop_monitoring st mid = (false, st)) ∧
    (∀ m, findMon st.active_monitors mid = some m →
      (stop_monitoring st mid).1 = true ∧
      findMon (stop_monitoring st mid).2.active_monitors mid = some { m with active := false } ∧
      (∀ k, k ≠ mid →
        findMon (stop_monitoring st mid).2.active_monitors k = findMon st.active_monitors k) ∧
      (stop_monitoring st mid).2.alerts_queue = st.alerts_queue) := by
  constructor
  · intro h
    simp only [stop_monitoring, h]
  · intro m hm
    refine ⟨?_, ?_, ?_, ?_⟩
    · simp [stop_monitoring, hm]
    · simp [stop_monitoring, hm, findMon_setActive_self]
    · intro k hk
      simp [stop_monitoring, hm, findMon_setActive_ne _ _ _ _ hk]
    · simp [stop_monitoring, hm]

/-- Witness for C8 on a one-monitor registry: stopping a missing id is a
no-op returning `False`; stopping Jane Doe's id returns `True` and leaves
her registered with `active = false`. -/
theorem stop_monitoring_spec_witness :
    stop_monitoring stW "missing" = (false, stW) ∧
    (stop_monitoring stW midJane).1 = true ∧
    findMon (stop_monitoring stW midJane).2.active_monitors midJane =
      some { mW with active := false } := by
  refine ⟨(stop_monitoring_spec stW "missing").1 (by decide), ?_, ?_⟩
  · exact ((stop_monitoring_spec stW midJane).2 mW (by decide)).1
  · exact ((stop_monitoring_spec stW midJane).2 mW (by decide)).2.1

/-! ## C2 -/

/-- C2: no source checker propagates a raised error.  For the CourtListener
checker, any environment in which the internal computation raises (network
failure or malformed 200-response body) is caught and degrades to the empty
result, and a non-raising run returns its alerts unchanged; the three
simulated checkers are total and return at most one alert each. -/
theorem checkers_never_raise (token : Option String) (env : CLEnv) (person_name : String)
    (alert_triggers : List String) (now : Nat) :
    (∀ msg, clTryBody token env person_name alert_triggers now = .error msg →
      check_courtlistener token env person_name alert_triggers now = []) ∧
    (∀ l, clTryBody token env person_name alert_triggers now = .ok l →
      check_courtlistener token env person_name alert_triggers now = l) ∧
    (∀ hit pid, (check_vinelink hit person_name pid now).length ≤ 1) ∧
    (∀ hit ci n1 n2, (check_pacer hit ci n1 n2 person_name now).length ≤ 1) ∧
    (∀ hit si ci, (check_state_courts hit si ci person_name now).length ≤ 1) := by
  refine ⟨?_, ?_, ?_, ?_, ?_⟩
  · intro msg h
    unfold check_courtlistener
    rw [h]
  · intro l h
    unfold check_courtlistener
    rw [h]
  · intro hit pid
    cases hit <;> simp [check_vinelink]
  · intro hit ci n1 n2
    cases hit <;> simp [check_pacer]
  · intro hit si ci
    cases hit <;> simp [check_state_courts]

/-- Witness for C2: a raising CourtListener exchange yields `[]` rather than
an error, and a vinelink hit yields at most one alert. -/
theorem checkers_never_raise_witness :
    check_courtlistener (some "tok") (.netFail "boom") "Jane Doe" ["arrest"] 0 = [] ∧
      (check_vinelink true "Jane Doe" "p1" 0).length ≤ 1 :=
  ⟨(checkers_never_raise (some "tok") (.netFail "boom") "Jane Doe" ["arrest"] 0).1 "boom" rfl,
   (checkers_never_raise (some "tok") (.netFail "boom") "Jane Doe" ["arrest"] 0).2.2.1 true "p1"⟩

/-! ## C10 -/

/-- C10: when an iteration of the scheduling loop raises, the `except` arm
leaves the monitor record untouched (in particular still `active`), appends
exactly one internal alert — of severity `warning` — for the fault to the
log, does not touch the registry, and ends the iteration with a 300-second
(5-minute) sleep, after which the `while active` loop continues. -/
theorem loop_fault_recovery (cfg : Cfg) (env : CycleEnv) (m : MonitorConfig) (st : SysState)
    (e : String) (he : env.raiseExn = some e) (hact : m.active = true) :
    (loopCycle cfg env m st).1 = m ∧
    (loopCycle cfg env m st).1.active = true ∧
    (loopCycle cfg env m st).2.1.alerts_queue = st.alerts_queue ++ [errorAlertOf m env.now e] ∧
    (errorAlertOf m env.now e).severity = .warning ∧
    (loopCycle cfg env m st).2.1.active_monitors = st.active_monitors ∧
    (loopCycle cfg env m st).2.2.getLast? = some (.sleep 300) := by
  refine ⟨?_, ?_, ?_, rfl, ?_, ?_⟩
  · simp [loopCycle, he]
  · simp [loopCycle, he, hact]
  · simp [loopCycle, he, process_alert]
  · simp [loopCycle, he]
  · simp [loopCycle, he, process_alert, List.getLast?_concat]

/-- A cycle environment whose iteration raises `"boom"`. -/
def envErr : CycleEnv := { envBenign with raiseExn := some "boom" }

/-- Witness for C10: a concrete faulting iteration for Jane Doe's active
monitor leaves the monitor unchanged and logs exactly the one warning
alert. -/
theorem loop_fault_recovery_witness :
    (loopCycle cfg0 envErr mW st0).1 = mW ∧
    (loopCycle cfg0 envErr mW st0).2.1.alerts_queue = [errorAlertOf mW 0 "boom"] ∧
    (errorAlertOf mW 0 "boom").severity = .warning := by
  have h := loop_fault_recovery cfg0 envErr mW st0 "boom" rfl rfl
  exact ⟨h.1, by simpa using h.2.2.1, h.2.2.2.1⟩

/-! ## C3 (corrected) -/

/-- C3 counterexample: `setup_person_monitoring` performs no input
validation — registering the empty target name is not rejected: the very
monitor id `"monitor__19700101_000000"` is produced, and a Monitor is
registered under it with `active = true` (the claim asserts the call is
rejected and no Monitor is registered). -/
theorem empty_name_registration_accepted :
    (setup_register "" "p0" [] ["email"] 0 st0).1 = "monitor__19700101_000000" ∧
    findMon (setup_register "" "p0" [] ["email"] 0 st0).2.2.active_monitors
        "monitor__19700101_000000" = some (setup_register "" "p0" [] ["email"] 0 st0).2.1 ∧
    (setup_register "" "p0" [] ["email"] 0 st0).2.1.active = true := by
  refine ⟨by decide, by decide, rfl⟩

/-- C3 amended: registration never validates its input and never fails — for
every target name (the empty string included) a Monitor carrying that name
is registered with `active = true`; no error propagates from
registration. -/
theorem registration_unvalidated (person_name person_id : String)
    (trig ch : List String) (now : Nat) (st : SysState) :
    findMon (setup_register person_name person_id trig ch now st).2.2.active_monitors
        (setup_register person_name person_id trig ch now st).1 =
      some (setup_register person_name person_id trig ch now st).2.1 ∧
    (setup_register person_name person_id trig ch now st).2.1.active = true ∧
    (setup_register person_name person_id trig ch now st).2.1.person_name = person_name := by
  refine ⟨?_, rfl, rfl⟩
  simp [setup_register, findMon_insert_self]

/-! ## C4 (corrected) -/

/-- The opinion record of a CourtListener page matching the `"arrest"`
trigger. -/
def opArrest : Opinion :=
  { oid := 7, plain_text := "Arrest warrant issued", case_name := some "US v Doe",
    court := none, date_created := some "2024-01-01", absolute_url := "/op/7" }

/-- A manager configuration with a CourtListener token. -/
def cfgCL : Cfg := { cl_token := some "tok", email_password := "", webhook_url := "" }

/-- A cycle environment in which CourtListener returns `opArrest`. -/
def envHit : CycleEnv := { envBenign with cl := .resp 200 (.ok [opArrest]) }

/-- Jane Doe's monitor registered with notification channel `sms` only. -/
def mSms : MonitorConfig := (setup_register "Jane Doe" "p1" ["arrest"] ["sms"] 0 st0).2.1

/-- C4 counterexample: a check cycle of a monitor whose
`notification_channels` is `{sms}` creates a CourtListener alert whose
`channels` is `{email, webhook}` — not a subset of the owning monitor's
channels (the created-alert list is nonempty, and the subset check fails on
it). -/
theorem alert_channels_not_subset :
    ((loopCycle cfgCL envHit mSms st0).2.1.alerts_queue.all
      fun a => a.channels.all fun c => mSms.channels.contains c.value) = false ∧
    (loopCycle cfgCL envHit mSms st0).2.1.alerts_queue ≠ [] := by
  refine ⟨by decide, by decide⟩

/-- Every `Except.ok` outcome of the CourtListener try-body carries only
alerts with the checker's hard-coded channel list. -/
theorem clTryBody_ok_channels (token : Option String) (env : CLEnv) (person : String)
    (triggers : List String) (now : Nat) (l : List Alert)
    (h : clTryBody token env person triggers now = .ok l) :
    ∀ a ∈ l, a.channels = [.email, .webhook] := by
  intro a ha
  unfold clTryBody at h
  by_cases hf : pyFalsy token = true
  · rw [if_pos hf] at h
    injection h with h1
    subst h1
    simp at ha
  · rw [if_neg hf] at h
    split at h
    · exact Except.noConfusion h
    · split at h
      · split at h
        · exact Except.noConfusion h
        · injection h with h1
          subst h1
          rw [List.mem_filterMap] at ha
          obtain ⟨o, _, ho⟩ := ha
          unfold clAlertOf at ho
          split at ho
          · injection ho with h2
            subst h2
            rfl
          · exact Option.noConfusion ho
      · injection h with h1
        subst h1
        simp at ha

/-- C4 amended: an alert's `channels` list is hard-coded by the producing
checker — `{email, webhook}` for the federal case search and the federal
docket search, `{email, sms}` for the custody-status lookup, `{email}` for
the state court search and for internal error alerts — independent of the
owning monitor's `notification_channels`. -/
theorem alert_channels_fixed_per_source (token : Option String) (env : CLEnv)
    (person_name : String) (triggers : List String) (now : Nat) :
    ((check_courtlistener token env person_name triggers now).all
      fun a => decide (a.channels = [.email, .webhook])) = true ∧
    (∀ hit pid, ((check_vinelink hit person_name pid now).all
      fun a => decide (a.channels = [.email, .sms])) = true) ∧
    (∀ hit ci n1 n2, ((check_pacer hit ci n1 n2 person_name now).all
      fun a => decide (a.channels = [.email, .webhook])) = true) ∧
    (∀ hit si ci, ((check_state_courts hit si ci person_name now).all
      fun a => decide (a.channels = [.email])) = true) ∧
    (∀ m e now2, (errorAlertOf m now2 e).channels = [.email]) := by
  refine ⟨?_, ?_, ?_, ?_, fun m e now2 => rfl⟩
  · rw [List.all_eq_true]
    intro a ha
    rw [decide_eq_true_eq]
    unfold check_courtlistener at ha
    cases hb : clTryBody token env person_name triggers now with
    | error msg =>
        rw [hb] at ha
        simp at ha
    | ok l =>
        rw [hb] at ha
        exact clTryBody_ok_channels token env person_name triggers now l hb a ha
  · intro hit pid
    cases hit <;> rfl
  · intro hit ci n1 n2
    cases hit <;> rfl
  · intro hit si ci
    cases hit <;> rfl

/-! ## C5 (corrected) -/

/-- C5 counterexample: the pipeline dispatches over the channel list passed
by its caller, not over the alert's own `channels` field — processing an
alert whose `channels` is `[sms]` with caller channels `["email"]` produces
the email dispatcher's effects, not those the alert's own field would
select. -/
theorem dispatch_ignores_alert_channels :
    (process_alert cfg0 de0 [] alertW ["email"]).2 ≠
      (alertW.channels.map NotificationChannel.value).flatMap
        (dispatch_channel cfg0 de0 alertW) := by
  decide

/-- C5 amended: `_process_alert` appends the alert to the process-wide log
and then invokes exactly the dispatchers for the channel names passed by the
caller (the monitoring loop passes the owning monitor's channels); the
dispatch effects do not depend on the alert's own `channels` field at
all. -/
theorem process_alert_spec (cfg : Cfg) (de : DispatchEnv) (queue : List Alert) (a : Alert)
    (channels : List String) (cs : List NotificationChannel) :
    (process_alert cfg de queue a channels).1 = queue ++ [a] ∧
    (process_alert cfg de queue a channels).2 =
      channels.flatMap (dispatch_channel cfg de a) ∧
    (process_alert cfg de queue { a with channels := cs } channels).2 =
      (process_alert cfg de queue a channels).2 := by
  refine ⟨rfl, rfl, ?_⟩
  have hd : dispatch_channel cfg de { a with channels := cs } = dispatch_channel cfg de a := by
    funext name
    cases a
    rfl
  simp only [process_alert, hd]

/-! ## C6 (corrected) -/

/-- The field set §4.4 of the spec claims for the webhook JSON body. -/
def claimedKeysC6 : List String :=
  ["alert_id", "title", "message", "severity", "source", "target_name", "target_id",
   "created_at", "metadata"]

/-- C6 counterexample: the POSTed JSON body has no `target_name` field — the
claimed field set names `target_name`, but the payload carries the person
under the key `target_person`. -/
theorem webhook_payload_key_mismatch :
    "target_name" ∉ (webhook_payload alertW).map Prod.fst ∧
    "target_name" ∈ claimedKeysC6 ∧
    "target_person" ∈ (webhook_payload alertW).map Prod.fst := by
  decide

/-- Recognizer for POST effects. -/
def isWebhookPost : Effect → Bool
  | .webhookPost _ _ _ => true
  | _ => false

/-- C6 amended: with a configured URL and a responding endpoint, the webhook
dispatcher issues exactly one POST (no automatic retry) carrying exactly the
fields `{alert_id, title, message, severity, source, target_person,
target_id, created_at, metadata}`, with `created_at` the `isoformat`
rendering of the alert's timestamp; any non-2xx status (the code in fact
treats every non-200 status this way) is logged as a terminal failure for
that delivery attempt. -/
theorem webhook_delivery_spec (cfg : Cfg) (de : DispatchEnv) (a : Alert) (status : Nat)
    (hurl : ¬cfg.webhook_url = "") (hnet : de.webhookNet = some status) :
    send_webhook_alert cfg de a =
      .webhookPost cfg.webhook_url 30 (webhook_payload a) ::
        (if status ≠ 200 then
          [.printLog ("Webhook failed with status " ++ toString status)]
        else []) ∧
    (send_webhook_alert cfg de a).countP isWebhookPost = 1 ∧
    (webhook_payload a).map Prod.fst =
      ["alert_id", "title", "message", "severity", "source", "target_person", "target_id",
       "created_at", "metadata"] ∧
    List.lookup "created_at" (webhook_payload a) = some (.s (isoformat a.created_at)) ∧
    (¬(200 ≤ status ∧ status < 300) →
      Effect.printLog ("Webhook failed with status " ++ toString status) ∈
        send_webhook_alert cfg de a) := by
  refine ⟨?_, ?_, rfl, rfl, ?_⟩
  · simp [send_webhook_alert, hurl, hnet]
  · by_cases h200 : status = 200 <;>
      simp [send_webhook_alert, hurl, hnet, h200, isWebhookPost, List.countP_cons]
  · intro hn
    have hne : status ≠ 200 := by
      intro he
      exact hn (by omega)
    simp [send_webhook_alert, hurl, hnet, hne]

/-- A manager configuration with a webhook URL. -/
def cfgHook : Cfg := { cl_token := none, email_password := "", webhook_url := "https://h.example/x" }

/-- Transports in which the webhook endpoint answers 500. -/
def deHook : DispatchEnv := { emailFail := false, webhookNet := some 500 }

/-- Witness for C6 (amended): a concrete delivery against a 500-responding
endpoint issues exactly one POST and logs the failure. -/
theorem webhook_delivery_spec_witness :
    (send_webhook_alert cfgHook deHook alertW).countP isWebhookPost = 1 ∧
    Effect.printLog "Webhook failed with status 500" ∈
      send_webhook_alert cfgHook deHook alertW := by
  have h := webhook_delivery_spec cfgHook deHook alertW 500 (by decide) rfl
  exact ⟨h.2.1, h.2.2.2.2 (by omega)⟩

/-! ## C1 (corrected) -/

/-- `setup_person_monitoring` unfolded: the freshly registered monitor is
found and its loop is run on the post-registration state. -/
theorem setup_eq_runLoop (cfg : Cfg) (cenvs : Nat → CycleEnv) (sched : Nat → Bool)
    (fuel : Nat) (name pid : String) (trig ch : List String) (now : Nat) (st : SysState) :
    setup_person_monitoring cfg cenvs sched fuel name pid trig ch now st =
      (runLoop cfg cenvs sched fuel 0 (setup_register name pid trig ch now st).2.1
        (setup_register name pid trig ch now st).2.2).map
        (fun p => ((setup_register name pid trig ch now st).1, p.2)) := by
  have hfind : findMon (setup_register name pid trig ch now st).2.2.active_monitors
      (setup_register name pid trig ch now st).1 =
        some (setup_register name pid trig ch now st).2.1 := by
    simp [setup_register, findMon_insert_self]
  simp only [setup_person_monitoring, start_monitoring_loop, hfind, Option.map_map]
  rfl

/-- C1 counterexample: a call to `setup_person_monitoring` with the
non-empty target name `"Jane Doe"` never returns while no concurrent stop
arrives — the first check cycle is not merely scheduled, it is awaited
inline inside an unbounded `while active` loop, so no amount of fuel makes
the call terminate (the claim asserts every such call terminates without
blocking on the check cycle). -/
theorem setup_blocks_forever :
    ¬∃ fuel, (setup_person_monitoring cfg0 cenvs0 schedNone fuel "Jane Doe" "p1" ["arrest"]
      ["email"] 0 st0).isSome = true := by
  rintro ⟨fuel, h⟩
  rw [setup_eq_runLoop] at h
  rw [runLoop_noStop cfg0 cenvs0 fuel 0
      (setup_register "Jane Doe" "p1" ["arrest"] ["email"] 0 st0).2.1
      (setup_register "Jane Doe" "p1" ["arrest"] ["email"] 0 st0).2.2 rfl] at h
  simp at h

/-- C1 amended: `setup_person_monitoring` first registers a Monitor with
`active = true` and `last_check = None` under the returned id, then runs
the monitoring loop inline rather than scheduling it; the call returns the
monitor id only once the loop has observed `active = false` (i.e. after a
concurrent stop), so at the moment of return the registered monitor is
inactive. -/
theorem setup_registers_then_blocks (cfg : Cfg) (cenvs : Nat → CycleEnv)
    (sched : Nat → Bool) (fuel : Nat) (name pid : String) (trig ch : List String)
    (now : Nat) (st : SysState) :
    ((setup_register name pid trig ch now st).2.1.active = true ∧
     (setup_register name pid trig ch now st).2.1.last_check = none ∧
     findMon (setup_register name pid trig ch now st).2.2.active_monitors
       (setup_register name pid trig ch now st).1 =
         some (setup_register name pid trig ch now st).2.1) ∧
    (∀ mid st2,
      setup_person_monitoring cfg cenvs sched fuel name pid trig ch now st =
        some (mid, st2) →
      mid = (setup_register name pid trig ch now st).1 ∧
      ∃ m', findMon st2.active_monitors mid = some m' ∧ m'.active = false) := by
  constructor
  · exact ⟨rfl, rfl, by simp [setup_register, findMon_insert_self]⟩
  · intro mid st2 h
    rw [setup_eq_runLoop] at h
    obtain ⟨⟨mf, stf⟩, hrun, heq⟩ := Option.map_eq_some'.mp h
    injection heq with h1 h2
    subst h1
    subst h2
    have hexit := runLoop_exit cfg cenvs sched fuel 0
      (setup_register name pid trig ch now st).2.1
      (setup_register name pid trig ch now st).2.2 mf stf hrun
      (by simp [setup_register, findMon_insert_self])
    exact ⟨rfl, mf, hexit.2.2, hexit.2.1⟩

/-- The result of a concrete terminating call: a stop lands in the first
sleep, so two units of fuel suffice for the loop to observe
`active = false` and return. -/
def runRes : Option (String × SysState) :=
  setup_person_monitoring cfg0 cenvs0 schedAll 2 "Jane Doe" "p1" ["arrest"] ["email"] 0 st0

/-- Witness for C1 (amended): the concrete stopped run returns, and the
monitor it leaves under the returned id is inactive. -/
theorem setup_registers_then_blocks_witness :
    ∃ m', findMon (runRes.getD ("", st0)).2.active_monitors midJane = some m' ∧
      m'.active = false := by
  have h := (setup_registers_then_blocks cfg0 cenvs0 schedAll 2 "Jane Doe" "p1" ["arrest"]
    ["email"] 0 st0).2 midJane (runRes.getD ("", st0)).2 rfl
  exact h.2

/-! ## C9 (corrected) -/

/-- C9 counterexample: two distinct valid calls — same target name, distinct
`person_id`s, within the same clock second — both return the very same
monitor id (the id is derived from the underscore-sanitized name and a
second-granularity timestamp, so it is not unique per call). -/
theorem monitor_id_collision :
    ∃ st1 st2,
      setup_person_monitoring cfg0 cenvs0 schedAll 2 "Jane Doe" "idA" [] ["email"] 0 st0 =
        some (midJane, st1) ∧
      setup_person_monitoring cfg0 cenvs0 schedAll 2 "Jane Doe" "idB" [] ["email"] 0 st1 =
        some (midJane, st2) :=
  ⟨_, _, rfl, rfl⟩

/-- C9 amended: returned monitor ids are distinct only when the id strings
derived from the sanitized name and registration second differ; in that
case both registrations are retrievable, each with `active = true`,
immediately after registration (before the inline loop runs — by the time
the call itself returns, the flag has been set to false, see C1). -/
theorem registration_distinct_ids (n1 p1 : String) (t1 c1 : List String) (now1 : Nat)
    (n2 p2 : String) (t2 c2 : List String) (now2 : Nat) (st : SysState)
    (h : monitorIdOf n1 now1 ≠ monitorIdOf n2 now2) :
    findMon (setup_register n2 p2 t2 c2 now2
        (setup_register n1 p1 t1 c1 now1 st).2.2).2.2.active_monitors
        (setup_register n1 p1 t1 c1 now1 st).1 =
      some (setup_register n1 p1 t1 c1 now1 st).2.1 ∧
    findMon (setup_register n2 p2 t2 c2 now2
        (setup_register n1 p1 t1 c1 now1 st).2.2).2.2.active_monitors
        (setup_register n2 p2 t2 c2 now2 (setup_register n1 p1 t1 c1 now1 st).2.2).1 =
      some (setup_register n2 p2 t2 c2 now2 (setup_register n1 p1 t1 c1 now1 st).2.2).2.1 ∧
    (setup_register n1 p1 t1 c1 now1 st).2.1.active = true ∧
    (setup_register n2 p2 t2 c2 now2 (setup_register n1 p1 t1 c1 now1 st).2.2).2.1.active =
      true := by
  refine ⟨?_, ?_, rfl, rfl⟩
  · simp only [setup_register]
    rw [findMon_insert_ne _ _ _ _ h]
    exact findMon_insert_self _ _ _
  · simp [setup_register, findMon_insert_self]

/-- Witness for C9 (amended): Jane Doe and John Roe registered in the same
second get different ids and are both retrievable with `active = true`. -/
theorem registration_distinct_ids_witness :
    findMon (setup_register "John Roe" "p2" [] ["email"] 0
        (setup_register "Jane Doe" "p1" [] ["email"] 0 st0).2.2).2.2.active_monitors
        (setup_register "Jane Doe" "p1" [] ["email"] 0 st0).1 =
      some (setup_register "Jane Doe" "p1" [] ["email"] 0 st0).2.1 ∧
    (setup_register "Jane Doe" "p1" [] ["email"] 0 st0).2.1.active = true := by
  have h := registration_distinct_ids "Jane Doe" "p1" [] ["email"] 0 "John Roe" "p2" []
    ["email"] 0 st0 (by decide)
  exact ⟨h.1, h.2.2.1⟩

end Tavit
